import Mathlib

/- Formal model of the cycle/fertility statistical engine of the sakhi
period-tracking application.

The engine is spread over three TypeScript service classes:
  * CycleCalculationService   (day-granularity calendar arithmetic via date-fns),
  * CyclePredictionService    (statistical summary prediction over cycle logs),
  * FertilityPredictionService (ovulation / fertility-window calculation).

Modelling conventions, per service:
  * CycleCalculationService works at whole-day granularity (date-fns addDays,
    differenceInDays, isSameDay, isAfter on dates that carry no meaningful
    time-of-day), so its dates are modelled as integers counting days since
    1970-01-01.
  * CyclePredictionService mixes day counts with raw millisecond timestamps
    (getTime arithmetic), so its dates are modelled as rational millisecond
    timestamps; JavaScript floating-point numbers are idealised as rationals,
    except that Math.sqrt forces the standard-deviation track into the reals.
  * FertilityPredictionService shifts dates only by whole multiples of
    86400000 ms and rounds all day differences, so its dates are modelled as
    integer day numbers as well.
  * JavaScript Math.round is floor (x + 1/2); thrown exceptions become
    Except.error values. -/

namespace Sakhi

/-- Day number (days since 1970-01-01) of a Gregorian calendar date, valid for
years since 1 CE. Used only to write concrete dates readably. -/
def civil (y m d : ℕ) : ℤ :=
  let yAdj : ℕ := if m ≤ 2 then y - 1 else y
  let era : ℕ := yAdj / 400
  let yoe : ℕ := yAdj % 400
  let mp : ℕ := (m + 9) % 12
  let doy : ℕ := (153 * mp + 2) / 5 + d - 1
  let doe : ℕ := yoe * 365 + yoe / 4 - yoe / 100 + doy
  (era * 146097 + doe : ℤ) - 719468

/-- JavaScript Math.round on a rational: round half toward positive infinity. -/
def jsRound (q : ℚ) : ℤ := ⌊q + 1/2⌋

/-- JavaScript Math.round on a real: round half toward positive infinity. -/
noncomputable def jsRoundR (x : ℝ) : ℤ := ⌊x + 1/2⌋

end Sakhi

namespace Sakhi.CycleCalc

/-- Calendar dates of CycleCalculationService: integer day numbers. -/
abbrev Date := ℤ

/-- Flow intensity of a logged period. -/
inductive Flow
  | light
  | medium
  | heavy
deriving DecidableEq, Repr

/-- PeriodLog record of CycleCalculationService (the optional id plays no role
in any computation and is omitted). -/
structure PeriodLog where
  startDate : Date
  endDate : Date
  flow : Flow
deriving DecidableEq, Repr

/-- Day-level phase of the CycleDay model. -/
inductive Phase
  | period
  | fertile
  | ovulation
  | unknown
deriving DecidableEq, Repr

/-- Day-level intensity of the CycleDay model. -/
inductive Intensity
  | light
  | medium
  | heavy
  | none
deriving DecidableEq, Repr

/-- Derived per-day entry produced by predictNextCycle. -/
structure CycleDay where
  date : Date
  phase : Phase
  intensity : Intensity
  prediction : Bool
deriving DecidableEq, Repr

/-- DEFAULT_CYCLE_LENGTH constant of CycleCalculationService. -/
def DEFAULT_CYCLE_LENGTH : ℤ := 28

/-- DEFAULT_PERIOD_LENGTH constant of CycleCalculationService. -/
def DEFAULT_PERIOD_LENGTH : ℤ := 6

/-- clearLogs resets the internal log list. -/
def clearLogs : List PeriodLog := []

/-- addPeriodLog: push the new log, then sort by start date in descending
order (newest first), modelling the comparator b.startDate − a.startDate. -/
def addPeriodLog (periodLogs : List PeriodLog) (log : PeriodLog) : List PeriodLog :=
  (periodLogs ++ [log]).mergeSort (fun a b => decide (b.startDate ≤ a.startDate))

/-- One step of the accumulation loop of calculateAverageCycleLength: add the
cycle length between a pair of consecutive logs (newer, older) to the running
(totalDays, validCycles) pair when it lies in the plausible 21..35 range. -/
def cycleStep (acc : ℤ × ℕ) (p : PeriodLog × PeriodLog) : ℤ × ℕ :=
  let cycleDays := p.1.startDate - p.2.startDate
  if 21 ≤ cycleDays ∧ cycleDays ≤ 35 then (acc.1 + cycleDays, acc.2 + 1) else acc

/-- calculateAverageCycleLength: with fewer than 2 logs return the default;
otherwise average (rounded) the cycle lengths between consecutive logs that
lie in 21..35 days, falling back to the default when none survives. -/
def calculateAverageCycleLength (periodLogs : List PeriodLog) : ℤ :=
  if periodLogs.length < 2 then DEFAULT_CYCLE_LENGTH
  else
    let acc := (periodLogs.zip periodLogs.tail).foldl cycleStep (0, 0)
    if 0 < acc.2 then jsRound ((acc.1 : ℚ) / (acc.2 : ℚ)) else DEFAULT_CYCLE_LENGTH

/-- One step of the accumulation loop of calculateAveragePeriodLength: add the
inclusive span of one log to the running (totalDays, validPeriods) pair when
it lies in the plausible 3..10 range. -/
def periodStep (acc : ℤ × ℕ) (log : PeriodLog) : ℤ × ℕ :=
  let periodDays := log.endDate - log.startDate + 1
  if 3 ≤ periodDays ∧ periodDays ≤ 10 then (acc.1 + periodDays, acc.2 + 1) else acc

/-- calculateAveragePeriodLength: with no logs return the default; otherwise
average (rounded) the inclusive period spans that lie in 3..10 days, falling
back to the default when none survives. -/
def calculateAveragePeriodLength (periodLogs : List PeriodLog) : ℤ :=
  if periodLogs.length = 0 then DEFAULT_PERIOD_LENGTH
  else
    let acc := periodLogs.foldl periodStep (0, 0)
    if 0 < acc.2 then jsRound ((acc.1 : ℚ) / (acc.2 : ℚ)) else DEFAULT_PERIOD_LENGTH

/-- Intensity taper used for period days: day 0 heavy, day 1 medium, later
days light (the expression i == 0 ? heavy : i < 2 ? medium : light). -/
def flowTaper (i : ℕ) : Intensity :=
  if i = 0 then .heavy else if i < 2 then .medium else .light

/-- Materialisation of the logged periods as concrete CycleDay entries: one
entry per calendar day of each logged span, phase period, never a
prediction. -/
def pastPeriodDays (periodLogs : List PeriodLog) : List CycleDay :=
  periodLogs.flatMap (fun log =>
    (List.range (log.endDate - log.startDate + 1).toNat).map (fun (i : ℕ) =>
      { date := log.startDate + (i : ℤ), phase := .period,
        intensity := flowTaper i, prediction := false }))

/-- Next-period anchor of predictNextCycle: when fromDate is after the most
recent start, jump from fromDate by cycleLength − (daysSince % cycleLength);
otherwise use the most recent start itself. -/
def nextPeriodStartFrom (mostRecentStart : Date) (cycleLength : ℤ) (fromDate : Date) : Date :=
  if mostRecentStart < fromDate then
    let daysSinceLastPeriod := fromDate - mostRecentStart
    let daysUntilNextPeriod := cycleLength - daysSinceLastPeriod % cycleLength
    fromDate + daysUntilNextPeriod
  else
    mostRecentStart

/-- Modelled from the spec: the anchor described by the specification text,
namely the most recent start advanced by the least number of whole multiples
of the average cycle length that lands on or after fromDate. Written for
comparison with nextPeriodStartFrom, which is the code's computation. -/
def specNextPeriodStart (mostRecentStart : Date) (cycleLength : ℤ) (fromDate : Date) : Date :=
  if mostRecentStart < fromDate then
    mostRecentStart + ((fromDate - mostRecentStart + cycleLength - 1) / cycleLength) * cycleLength
  else
    mostRecentStart

/-- Deduplicating accumulator of predictNextCycle: a candidate day is appended
only when no entry with the same calendar date is present yet. -/
def addIfNew (acc : List CycleDay) (d : CycleDay) : List CycleDay :=
  if acc.any (fun e => decide (e.date = d.date)) then acc else acc ++ [d]

/-- Candidate predicted days for the 3 projected cycles, in generation order:
for each cycle, the period days from the cycle anchor, then the fertile window
of 6 days ending at the ovulation day (next anchor minus 14). -/
def predictionCandidates (nextPeriodStart : Date) (cycleLength periodLength : ℤ) : List CycleDay :=
  (List.range 3).flatMap (fun cycle =>
    let cycleStartDate := nextPeriodStart + (cycle : ℤ) * cycleLength
    let periodDays := (List.range periodLength.toNat).map (fun (day : ℕ) =>
      { date := cycleStartDate + (day : ℤ), phase := Phase.period,
        intensity := flowTaper day, prediction := true })
    let ovulationDay := cycleStartDate + cycleLength - 14
    let fertileDays := (List.range 6).map (fun (k : ℕ) =>
      let day : ℤ := (k : ℤ) - 5
      { date := ovulationDay + day,
        phase := if day = 0 then Phase.ovulation else Phase.fertile,
        intensity := Intensity.none, prediction := true })
    periodDays ++ fertileDays)

/-- predictNextCycle of CycleCalculationService: materialise the logged
periods, compute the averages and the anchor, fold the predicted candidates
through the deduplicating accumulator, and sort ascending by date. -/
def predictNextCycle (periodLogs : List PeriodLog) (fromDate : Date) : List CycleDay :=
  match periodLogs with
  | [] => []
  | mostRecentPeriod :: _ =>
    let cycleDays := pastPeriodDays periodLogs
    let cycleLength := calculateAverageCycleLength periodLogs
    let periodLength := calculateAveragePeriodLength periodLogs
    let nextPeriodStart := nextPeriodStartFrom mostRecentPeriod.startDate cycleLength fromDate
    let allDays := (predictionCandidates nextPeriodStart cycleLength periodLength).foldl addIfNew cycleDays
    allDays.mergeSort (fun a b => decide (a.date ≤ b.date))

/-- getPeriodLogs returns a copy of the internal list; on the value level the
copy is the list itself. -/
def getPeriodLogs (periodLogs : List PeriodLog) : List PeriodLog := periodLogs

/-- Mutating operations offered by CycleCalculationService on its internal
log list. -/
inductive LogOp
  | add (log : PeriodLog)
  | clear

/-- Effect of one operation on the internal log list. -/
def applyLogOp (periodLogs : List PeriodLog) : LogOp → List PeriodLog
  | .add log => addPeriodLog periodLogs log
  | .clear => clearLogs

/-- Internal log list after a sequence of operations, starting empty. -/
def runLogOps (ops : List LogOp) : List PeriodLog := ops.foldl applyLogOp []

/-- Helper: cycle lengths between consecutive logs of the (descending) list,
newest pair first, used to state properties of calculateAverageCycleLength. -/
def consecutiveCycleLengths (periodLogs : List PeriodLog) : List ℤ :=
  (periodLogs.zip periodLogs.tail).map (fun p => p.1.startDate - p.2.startDate)

/-- Helper: the plausibility filter 21..35 on candidate cycle lengths. -/
def plausibleCycle (d : ℤ) : Bool := decide (21 ≤ d ∧ d ≤ 35)

/-- Helper: the plausibility filter 3..10 on candidate period spans. -/
def plausiblePeriod (d : ℤ) : Bool := decide (3 ≤ d ∧ d ≤ 10)

/-- Scenario logs of the specification: 2024-01-01..2024-01-05 and
2024-01-29..2024-02-02, kept newest first. -/
def demoLogs : List PeriodLog :=
  [⟨civil 2024 1 29, civil 2024 2 2, .medium⟩, ⟨civil 2024 1 1, civil 2024 1 5, .medium⟩]

/-- Logs whose consecutive start-date differences are 28, 29 and 60 days,
for the outlier-rejection scenario; starts descending. -/
def outlierLogs : List PeriodLog :=
  [⟨117, 121, .heavy⟩, ⟨89, 93, .medium⟩, ⟨60, 64, .light⟩, ⟨0, 4, .medium⟩]

end Sakhi.CycleCalc

namespace Sakhi.CyclePred

/-- Cycle log record of CyclePredictionService; dates are rational millisecond
timestamps, the cycle length is the stored length field (null when the cycle
has not ended). The remaining fields of the TypeScript CycleLog interface
(symptoms, notes, flow, days, ...) feed no computation modelled here and are
omitted. -/
structure CycleLog where
  startDate : ℚ
  endDate : Option ℚ
  length : Option ℚ

instance : Inhabited CycleLog := ⟨⟨0, none, none⟩⟩

/-- Statistical analysis record produced by analyzeCycles. -/
structure CycleAnalysis where
  mean : ℚ
  standardDeviation : ℝ
  regularityScore : ℝ
  isRegular : Prop

/-- Start and end of one predicted phase (millisecond timestamps). -/
structure PhaseRange where
  start : ℚ
  «end» : ℚ

/-- Per-phase date ranges of a cycle prediction. -/
structure PhasesPrediction where
  menstrual : PhaseRange
  follicular : PhaseRange
  ovulation : PhaseRange
  luteal : PhaseRange

/-- CyclePrediction record (id, userId and lastUpdated omitted: they carry no
computational content). -/
structure CyclePrediction where
  nextPeriodStart : ℚ
  nextPeriodEnd : ℚ
  confidence : ℤ
  basedOnCycles : ℕ
  averageCycleLength : ℚ
  standardDeviation : ℝ
  regularityScore : ℝ
  phasesPrediction : PhasesPrediction

/-- MIN_CYCLES_FOR_PREDICTION constant of CyclePredictionService. -/
def MIN_CYCLES_FOR_PREDICTION : ℕ := 3

/-- REGULARITY_THRESHOLD constant of CyclePredictionService. -/
def REGULARITY_THRESHOLD : ℝ := 0.15

/-- Error message thrown by analyzeCycles on insufficient data. -/
def insufficientDataMsg : String := "Not enough cycle data for analysis"

/-- Cycle lengths surviving the truthiness filter
cycles.filter(c => c.endDate && c.length).map(c => c.length!): a log
contributes its length when endDate is non-null and length is non-null and
non-zero. -/
def validLengths (cycles : List CycleLog) : List ℚ :=
  cycles.filterMap (fun c =>
    match c.endDate, c.length with
    | some _, some l => if l = 0 then none else some l
    | _, _ => none)

/-- Mean of a list of rationals (sum divided by length), the spec-level
notion used to state properties of analyzeCycles. -/
def meanOf (ls : List ℚ) : ℚ := ls.sum / (ls.length : ℚ)

/-- Population variance of a list of rationals about its mean, the spec-level
notion used to state properties of analyzeCycles. -/
def varianceOf (ls : List ℚ) : ℚ :=
  (ls.map (fun len => (len - meanOf ls) * (len - meanOf ls))).sum / (ls.length : ℚ)

/-- Coefficient of variation of the surviving cycle lengths: standard
deviation (real square root of the variance) divided by the mean. -/
noncomputable def variationCoefficientOf (cycles : List CycleLog) : ℝ :=
  Real.sqrt ((varianceOf (validLengths cycles) : ℝ)) / ((meanOf (validLengths cycles) : ℚ) : ℝ)

/-- analyzeCycles of CyclePredictionService: throw below 3 cycles, otherwise
compute mean, standard deviation, regularity score
max(0, min(100, 100 (1 − variationCoefficient / 0.3))) and the regularity
flag. -/
noncomputable def analyzeCycles (cycles : List CycleLog) : Except String CycleAnalysis :=
  if cycles.length < MIN_CYCLES_FOR_PREDICTION then .error insufficientDataMsg
  else
    let lengths := validLengths cycles
    let mean := lengths.sum / (lengths.length : ℚ)
    let variance := (lengths.map (fun len => (len - mean) * (len - mean))).sum / (lengths.length : ℚ)
    let standardDeviation := Real.sqrt ((variance : ℚ) : ℝ)
    let variationCoefficient := standardDeviation / ((mean : ℚ) : ℝ)
    let regularityScore := max 0 (min 100 (100 * (1 - variationCoefficient / 0.3)))
    let isRegular := variationCoefficient ≤ REGULARITY_THRESHOLD
    .ok ⟨mean, standardDeviation, regularityScore, isRegular⟩

/-- calculatePredictionConfidence of CyclePredictionService: start from the
regularity score, blend in the cycle-count factor min(1, (count − 3)/9) as
0.7 + 0.3 factor, blend in the variation penalty max(0, 1 − stddev/mean) as
0.8 + 0.2 penalty, clamp to 0..100 and round. -/
noncomputable def calculatePredictionConfidence (analysis : CycleAnalysis) (cycleCount : ℕ) : ℤ :=
  let confidence0 := analysis.regularityScore
  let cycleCountFactor : ℝ := min 1 (((cycleCount : ℝ) - (MIN_CYCLES_FOR_PREDICTION : ℝ)) / 9)
  let confidence1 := confidence0 * (0.7 + 0.3 * cycleCountFactor)
  let variationPenalty : ℝ := max 0 (1 - analysis.standardDeviation / ((analysis.mean : ℚ) : ℝ))
  let confidence2 := confidence1 * (0.8 + 0.2 * variationPenalty)
  jsRoundR (max 0 (min 100 confidence2))

/-- predictCyclePhases of CyclePredictionService: split the predicted cycle
into the four typical phases, each scaled so the typical total (31 days)
fills the predicted cycle length; phases are laid out back to back from the
cycle start, each spanning its scaled average length in milliseconds. -/
def predictCyclePhases (cycleStart : ℚ) (cycleLength : ℚ) : PhasesPrediction :=
  let totalPhaseLength : ℚ := ((3 : ℚ) + 7) / 2 + ((7 : ℚ) + 14) / 2 + ((1 : ℚ) + 2) / 2 + ((12 : ℚ) + 16) / 2
  let scaleFactor := cycleLength / totalPhaseLength
  let msPerDay : ℚ := 86400000
  let menstrualEnd := cycleStart + ((3 : ℚ) + 7) / 2 * scaleFactor * msPerDay
  let follicularEnd := menstrualEnd + ((7 : ℚ) + 14) / 2 * scaleFactor * msPerDay
  let ovulationEnd := follicularEnd + ((1 : ℚ) + 2) / 2 * scaleFactor * msPerDay
  let lutealEnd := ovulationEnd + ((12 : ℚ) + 16) / 2 * scaleFactor * msPerDay
  ⟨⟨cycleStart, menstrualEnd⟩, ⟨menstrualEnd, follicularEnd⟩,
   ⟨follicularEnd, ovulationEnd⟩, ⟨ovulationEnd, lutealEnd⟩⟩

/-- predictNextCycle of CyclePredictionService: analyse the cycles (an
analysis failure propagates as the thrown error), predict the next start with
an exponentially weighted (0.8 decay) average of the up to 6 most recent
cycle lengths, where a null or zero stored length falls back to the mean, and
assemble the CyclePrediction summary. -/
noncomputable def predictNextCycle (cycles : List CycleLog) : Except String CyclePrediction :=
  match analyzeCycles cycles with
  | .error e => .error e
  | .ok analysis =>
    let lastCycle := cycles.headI
    let recentCycles := cycles.take 6
    let weights := (List.range recentCycles.length).map (fun (i : ℕ) => (0.8 : ℚ) ^ i)
    let weightedSum := ((recentCycles.zip weights).map (fun p =>
        (match p.1.length with
         | some l => if l = 0 then analysis.mean else l
         | none => analysis.mean) * p.2)).sum
    let totalWeight := weights.sum
    let predictedLength := weightedSum / totalWeight
    let nextStart := lastCycle.startDate + predictedLength * 86400000
    let nextEnd := nextStart + analysis.mean * 86400000
    let phasesPrediction := predictCyclePhases nextStart analysis.mean
    let confidence := calculatePredictionConfidence analysis cycles.length
    .ok ⟨nextStart, nextEnd, confidence, cycles.length, analysis.mean,
         analysis.standardDeviation, analysis.regularityScore, phasesPrediction⟩

/-- Single cycle log for the insufficient-data scenario. -/
def oneCycle : CycleLog := ⟨0, some 86400000, some 28⟩

/-- Three identical complete cycles, enough for analysis, zero variance. -/
def threeCycles : List CycleLog :=
  [⟨0, some 86400000, some 28⟩, ⟨1, some 2, some 28⟩, ⟨2, some 3, some 28⟩]

end Sakhi.CyclePred

namespace Sakhi.Fertility

/- Calendar dates of FertilityPredictionService are integer day numbers (the
service shifts dates only by whole days and rounds all day differences), so
every date below is a plain ℤ. -/

/-- Cycle log as consumed by FertilityPredictionService; only the start date
feeds the computations modelled here. -/
structure CycleLog where
  startDate : ℤ

instance : Inhabited CycleLog := ⟨⟨0⟩⟩

/-- Fertility window type enum. -/
inductive FertilityType
  | HIGHLY_FERTILE
  | FERTILE
  | LESS_FERTILE
  | INFERTILE
deriving DecidableEq, Repr

/-- Fertility phase enum. -/
inductive FertilityPhase
  | MENSTRUAL
  | FOLLICULAR
  | OVULATION
  | LUTEAL
deriving DecidableEq, Repr

/-- FertilityWindow record: start and end dates, graded type, base
probability. -/
structure FertilityWindow where
  start : ℤ
  «end» : ℤ
  type : FertilityType
  probability : ℚ
deriving DecidableEq, Repr

/-- OvulationPrediction record. -/
structure OvulationPrediction where
  expectedDate : ℤ
  confidence : ℚ
  fertilityWindows : List FertilityWindow
deriving DecidableEq, Repr

/-- FertilityStats as consumed by predictNextOvulation; only the average
ovulation day and the confidence level feed the computation. -/
structure FertilityStats where
  averageOvulationDay : ℤ
  confidenceLevel : ℚ
deriving DecidableEq, Repr

/-- HIGHLY_FERTILE_WINDOW constant (days before ovulation). -/
def HIGHLY_FERTILE_WINDOW : ℤ := 3

/-- predictNextOvulation of FertilityPredictionService: expected ovulation is
the most recent start plus the average ovulation day; the three windows are
laid out around it, highly fertile from 3 days before up to the ovulation
date, fertile from the ovulation date to 2 days after, less fertile from 5
days before to 3 days before. -/
def predictNextOvulation (cycles : List CycleLog) (stats : FertilityStats) : OvulationPrediction :=
  let lastCycle := cycles.headI
  let expectedOvulationDate := lastCycle.startDate + stats.averageOvulationDay
  { expectedDate := expectedOvulationDate,
    confidence := stats.confidenceLevel,
    fertilityWindows :=
      [ { start := expectedOvulationDate - HIGHLY_FERTILE_WINDOW,
          «end» := expectedOvulationDate,
          type := .HIGHLY_FERTILE, probability := 0.3 },
        { start := expectedOvulationDate,
          «end» := expectedOvulationDate + 2,
          type := .FERTILE, probability := 0.2 },
        { start := expectedOvulationDate - (HIGHLY_FERTILE_WINDOW + 2),
          «end» := expectedOvulationDate - HIGHLY_FERTILE_WINDOW,
          type := .LESS_FERTILE, probability := 0.1 } ] }

/-- determineFertilityPhase of FertilityPredictionService: day difference to
the expected ovulation decides the phase (0 ovulation, −5..−1 follicular,
1..14 luteal, follicular otherwise). -/
def determineFertilityPhase (date : ℤ) (prediction : OvulationPrediction) : FertilityPhase :=
  let daysDiff := date - prediction.expectedDate
  if daysDiff = 0 then .OVULATION
  else if daysDiff < 0 ∧ -5 ≤ daysDiff then .FOLLICULAR
  else if 0 < daysDiff ∧ daysDiff ≤ 14 then .LUTEAL
  else .FOLLICULAR

/-- calculateDailyProbability of FertilityPredictionService: the first window
containing the date (endpoints inclusive) contributes its base probability
scaled by the overall confidence; dates in no window get 0. -/
def calculateDailyProbability (date : ℤ) (prediction : OvulationPrediction) : ℚ :=
  match prediction.fertilityWindows.find? (fun w => decide (w.start ≤ date ∧ date ≤ w.«end»)) with
  | some w => w.probability * prediction.confidence
  | none => 0

/-- Scenario cycles: one cycle starting 2024-03-01. -/
def demoFertilityCycles : List CycleLog := [⟨civil 2024 3 1⟩]

/-- Scenario stats: ovulation on cycle day 14, full confidence, putting the
expected ovulation on 2024-03-15. -/
def demoFertilityStats : FertilityStats := ⟨14, 1⟩

end Sakhi.Fertility

namespace Sakhi.CycleCalc

/-- Unrolling of the accumulation loop of calculateAverageCycleLength: the
fold computes the sum and the count of the plausible candidate cycle
lengths. -/
theorem foldl_cycleStep_eq (ps : List (PeriodLog × PeriodLog)) (t : ℤ) (c : ℕ) :
    ps.foldl cycleStep (t, c) =
      (t + ((ps.map (fun p => p.1.startDate - p.2.startDate)).filter plausibleCycle).sum,
       c + ((ps.map (fun p => p.1.startDate - p.2.startDate)).filter plausibleCycle).length) := by
  induction ps generalizing t c with
  | nil => simp
  | cons p ps ih =>
    by_cases h : 21 ≤ p.1.startDate - p.2.startDate ∧ p.1.startDate - p.2.startDate ≤ 35
    · have hb : plausibleCycle (p.1.startDate - p.2.startDate) = true := by
        simp [plausibleCycle, h]
      simp only [List.foldl_cons, List.map_cons, List.filter_cons, hb, if_true, cycleStep]
      rw [if_pos h, ih]
      refine Prod.ext ?_ ?_ <;> simp <;> omega
    · have hb : plausibleCycle (p.1.startDate - p.2.startDate) = false := by
        simpa [plausibleCycle] using h
      simp only [List.foldl_cons, List.map_cons, List.filter_cons, hb, cycleStep]
      rw [if_neg h, ih]
      simp

/-- Unrolling of the accumulation loop of calculateAveragePeriodLength. -/
theorem foldl_periodStep_eq (logs : List PeriodLog) (t : ℤ) (c : ℕ) :
    logs.foldl periodStep (t, c) =
      (t + ((logs.map (fun log => log.endDate - log.startDate + 1)).filter plausiblePeriod).sum,
       c + ((logs.map (fun log => log.endDate - log.startDate + 1)).filter plausiblePeriod).length) := by
  induction logs generalizing t c with
  | nil => simp
  | cons log logs ih =>
    by_cases h : 3 ≤ log.endDate - log.startDate + 1 ∧ log.endDate - log.startDate + 1 ≤ 10
    · have hb : plausiblePeriod (log.endDate - log.startDate + 1) = true := by
        simp [plausiblePeriod, h]
      simp only [List.foldl_cons, List.map_cons, List.filter_cons, hb, if_true, periodStep]
      rw [if_pos h, ih]
      refine Prod.ext ?_ ?_ <;> simp <;> omega
    · have hb : plausiblePeriod (log.endDate - log.startDate + 1) = false := by
        simpa [plausiblePeriod] using h
      simp only [List.foldl_cons, List.map_cons, List.filter_cons, hb, periodStep]
      rw [if_neg h, ih]
      simp

/-- Every value of calculateAverageCycleLength is positive: it is either the
28-day default or the rounded mean of candidates that are all at least 21. -/
theorem calculateAverageCycleLength_pos (logs : List PeriodLog) :
    0 < calculateAverageCycleLength logs := by
  unfold calculateAverageCycleLength
  by_cases hlen : logs.length < 2
  · simp [hlen, DEFAULT_CYCLE_LENGTH]
  · rw [if_neg hlen]
    rw [foldl_cycleStep_eq]
    simp only [zero_add]
    set l := ((logs.zip logs.tail).map (fun p => p.1.startDate - p.2.startDate)).filter
      plausibleCycle with hl
    by_cases hpos : 0 < l.length
    · rw [if_pos hpos]
      have hall : ∀ x ∈ l, (21 : ℤ) ≤ x := by
        intro x hx
        have := List.of_mem_filter hx
        simp only [plausibleCycle, decide_eq_true_eq] at this
        exact this.1
      have hsum : (l.length : ℤ) * 21 ≤ l.sum := by
        have := List.card_nsmul_le_sum l 21 hall
        simpa [nsmul_eq_mul] using this
      have hq : (21 : ℚ) ≤ (l.sum : ℚ) / (l.length : ℚ) := by
        rw [le_div_iff₀ (by exact_mod_cast hpos)]
        calc (21 : ℚ) * (l.length : ℚ) = ((l.length * 21 : ℤ) : ℚ) := by push_cast; ring
          _ ≤ (l.sum : ℚ) := by exact_mod_cast hsum
      unfold jsRound
      have h1 : (1 : ℤ) ≤ ⌊(l.sum : ℚ) / (l.length : ℚ) + 1/2⌋ := by
        rw [Int.le_floor]
        push_cast at hq ⊢
        linarith
      omega
    · rw [if_neg hpos]
      simp [DEFAULT_CYCLE_LENGTH]

/-- C1 (amended): with fewer than the minimum logs the statistics fall back to
the documented defaults, a 28-day average cycle length and a 6-day average
period length (the DEFAULT_PERIOD_LENGTH constant is 6, not 5). -/
theorem analyze_defaults (logs : List PeriodLog) :
    (logs.length < 2 → calculateAverageCycleLength logs = 28) ∧
    calculateAveragePeriodLength [] = 6 := by
  constructor
  · intro h
    unfold calculateAverageCycleLength
    rw [if_pos h]
    rfl
  · rfl

/-- Witness for analyze_defaults at the empty log list. -/
theorem analyze_defaults_witness :
    ([] : List PeriodLog).length < 2 ∧ calculateAverageCycleLength [] = 28 ∧
      calculateAveragePeriodLength [] = 6 :=
  ⟨by decide, (analyze_defaults []).1 (by decide), (analyze_defaults []).2⟩

/-- C1 counterexample: the default average period length returned for the
empty log list is 6, not the 5 stated in the claim. -/
theorem defaultPeriodLength_cex :
    calculateAveragePeriodLength [] = 6 ∧ (6 : ℤ) ≠ 5 :=
  ⟨rfl, by decide⟩

/-- C6: candidate cycle lengths outside 21..35 days are discarded and the
average cycle length is the rounded arithmetic mean of the surviving
candidates; for consecutive cycle lengths 28, 29 and 60 the outlier 60 is
excluded and the average is 29 (which the claim allows as round((28+29)/2)). -/
theorem avgCycleLength_outlier_rejection (logs : List PeriodLog)
    (h2 : 2 ≤ logs.length)
    (hne : (consecutiveCycleLengths logs).filter plausibleCycle ≠ []) :
    calculateAverageCycleLength logs =
      jsRound ((((consecutiveCycleLengths logs).filter plausibleCycle).sum : ℚ) /
        (((consecutiveCycleLengths logs).filter plausibleCycle).length : ℚ)) ∧
    calculateAverageCycleLength outlierLogs = 29 := by
  constructor
  · unfold calculateAverageCycleLength
    rw [if_neg (by omega)]
    rw [foldl_cycleStep_eq]
    simp only [zero_add]
    rw [if_pos]
    · rfl
    · simpa [consecutiveCycleLengths, List.length_pos] using hne
  · norm_num [calculateAverageCycleLength, cycleStep, outlierLogs, jsRound, DEFAULT_CYCLE_LENGTH]

/-- Witness for avgCycleLength_outlier_rejection at the 28/29/60 scenario. -/
theorem avgCycleLength_outlier_rejection_witness :
    2 ≤ outlierLogs.length ∧
      (consecutiveCycleLengths outlierLogs).filter plausibleCycle ≠ [] ∧
      calculateAverageCycleLength outlierLogs =
        jsRound ((((consecutiveCycleLengths outlierLogs).filter plausibleCycle).sum : ℚ) /
          (((consecutiveCycleLengths outlierLogs).filter plausibleCycle).length : ℚ)) :=
  ⟨by decide, by decide,
    (avgCycleLength_outlier_rejection outlierLogs (by decide) (by decide)).1⟩

/-- C3 (amended): when fromDate is strictly after the most recent start, the
code anchors the first projected period at the most recent start advanced by
the least number of whole average-cycle-length multiples that lands strictly
after fromDate (not merely on or after it); otherwise the anchor is the most
recent start itself. In the two-log scenario, predicting from 2024-02-10
yields 2024-02-26. -/
theorem nextPeriodStart_anchor (logs : List PeriodLog) (mostRecent : PeriodLog)
    (rest : List PeriodLog) (hlogs : logs = mostRecent :: rest) (fromDate : Date) :
    (mostRecent.startDate < fromDate →
        nextPeriodStartFrom mostRecent.startDate (calculateAverageCycleLength logs) fromDate
          = mostRecent.startDate +
            ((fromDate - mostRecent.startDate) / calculateAverageCycleLength logs + 1) *
              calculateAverageCycleLength logs ∧
        fromDate < nextPeriodStartFrom mostRecent.startDate
          (calculateAverageCycleLength logs) fromDate ∧
        nextPeriodStartFrom mostRecent.startDate (calculateAverageCycleLength logs) fromDate
            - calculateAverageCycleLength logs ≤ fromDate) ∧
    (¬ mostRecent.startDate < fromDate →
        nextPeriodStartFrom mostRecent.startDate (calculateAverageCycleLength logs) fromDate
          = mostRecent.startDate) ∧
    nextPeriodStartFrom (civil 2024 1 29) (calculateAverageCycleLength demoLogs)
        (civil 2024 2 10) = civil 2024 2 26 := by
  have hL : 0 < calculateAverageCycleLength logs := calculateAverageCycleLength_pos logs
  refine ⟨?_, ?_, ?_⟩
  · intro hlt
    unfold nextPeriodStartFrom
    rw [if_pos hlt]
    have key := Int.ediv_add_emod (fromDate - mostRecent.startDate)
      (calculateAverageCycleLength logs)
    have hr0 : 0 ≤ (fromDate - mostRecent.startDate) % calculateAverageCycleLength logs :=
      Int.emod_nonneg _ (by omega)
    have hrL : (fromDate - mostRecent.startDate) % calculateAverageCycleLength logs
        < calculateAverageCycleLength logs := Int.emod_lt_of_pos _ hL
    dsimp only
    refine ⟨by linear_combination -key, by linarith, by linarith⟩
  · intro hnlt
    unfold nextPeriodStartFrom
    rw [if_neg hnlt]
  · norm_num [calculateAverageCycleLength, cycleStep, demoLogs, jsRound, civil,
      DEFAULT_CYCLE_LENGTH, nextPeriodStartFrom]

/-- Witness for nextPeriodStart_anchor at the two-log scenario with fromDate
2024-02-10. -/
theorem nextPeriodStart_anchor_witness :
    (civil 2024 1 29 < civil 2024 2 10) ∧
    nextPeriodStartFrom (civil 2024 1 29) (calculateAverageCycleLength demoLogs)
        (civil 2024 2 10)
      = civil 2024 1 29 +
          ((civil 2024 2 10 - civil 2024 1 29) / calculateAverageCycleLength demoLogs + 1) *
            calculateAverageCycleLength demoLogs :=
  ⟨by decide,
    ((nextPeriodStart_anchor demoLogs ⟨civil 2024 1 29, civil 2024 2 2, Flow.medium⟩
      [⟨civil 2024 1 1, civil 2024 1 5, Flow.medium⟩] rfl (civil 2024 2 10)).1 (by decide)).1⟩

/-- C3 counterexample: from 2024-02-26, exactly one whole 28-day cycle after
the most recent start 2024-01-29, the least-multiple-on-or-after anchor of
the claim is 2024-02-26 itself, but the code returns 2024-03-25, one full
cycle later. -/
theorem nextPeriodStart_claim_cex :
    specNextPeriodStart (civil 2024 1 29) (calculateAverageCycleLength demoLogs)
        (civil 2024 2 26) = civil 2024 2 26 ∧
    nextPeriodStartFrom (civil 2024 1 29) (calculateAverageCycleLength demoLogs)
        (civil 2024 2 26) = civil 2024 3 25 ∧
    civil 2024 3 25 ≠ civil 2024 2 26 := by
  refine ⟨?_, ?_, by decide⟩ <;>
    norm_num [specNextPeriodStart, nextPeriodStartFrom, calculateAverageCycleLength,
      cycleStep, demoLogs, jsRound, civil, DEFAULT_CYCLE_LENGTH]

end Sakhi.CycleCalc

namespace Sakhi.CycleCalc

/-- Folding candidates through the deduplicating accumulator only ever adds
entries, so everything already accumulated stays in the result. -/
theorem mem_foldl_addIfNew (cands : List CycleDay) (acc : List CycleDay) (x : CycleDay)
    (hx : x ∈ acc) : x ∈ cands.foldl addIfNew acc := by
  induction cands generalizing acc with
  | nil => exact hx
  | cons c cs ih =>
    apply ih
    unfold addIfNew
    split
    · exact hx
    · exact List.mem_append_left _ hx

/-- Invariant of the deduplicating fold: starting from an accumulator that
contains the base entries, every entry of the result is either a base entry
or has a calendar date shared with no base entry. -/
theorem foldl_addIfNew_newDates (base : List CycleDay) (cands : List CycleDay)
    (acc : List CycleDay) (hsub : ∀ x ∈ base, x ∈ acc)
    (hP : ∀ d ∈ acc, d ∈ base ∨ ∀ p ∈ base, p.date ≠ d.date) :
    ∀ d ∈ cands.foldl addIfNew acc, d ∈ base ∨ ∀ p ∈ base, p.date ≠ d.date := by
  induction cands generalizing acc with
  | nil => exact hP
  | cons c cs ih =>
    intro d hd
    refine ih (addIfNew acc c) ?_ ?_ d hd
    · intro x hx
      unfold addIfNew
      split
      · exact hsub x hx
      · exact List.mem_append_left _ (hsub x hx)
    · intro e he
      by_cases hb : (acc.any (fun x => decide (x.date = c.date))) = true
      · rw [addIfNew, if_pos hb] at he
        exact hP e he
      · rw [addIfNew, if_neg hb] at he
        rcases List.mem_append.mp he with h1 | h2
        · exact hP e h1
        · have hc : e = c := by simpa using h2
          subst hc
          right
          intro p hp hpe
          apply hb
          refine List.any_eq_true.mpr ⟨p, hsub p hp, ?_⟩
          simp [hpe]

/-- Materialised logged days are never predictions. -/
theorem pastPeriodDays_prediction_false (logs : List PeriodLog) :
    ∀ d ∈ pastPeriodDays logs, d.prediction = false := by
  intro d hd
  simp only [pastPeriodDays, List.mem_flatMap, List.mem_map, List.mem_range] at hd
  obtain ⟨log, _, i, _, rfl⟩ := hd
  rfl

/-- Every day of a logged span appears among the materialised logged days. -/
theorem mem_pastPeriodDays (logs : List PeriodLog) (log : PeriodLog) (hmem : log ∈ logs)
    (i : ℕ) (hi : (i : ℤ) < log.endDate - log.startDate + 1) :
    ({ date := log.startDate + (i : ℤ), phase := .period, intensity := flowTaper i,
       prediction := false } : CycleDay) ∈ pastPeriodDays logs := by
  simp only [pastPeriodDays, List.mem_flatMap, List.mem_map, List.mem_range]
  exact ⟨log, hmem, i, Int.lt_toNat.mpr hi, rfl⟩

/-- Unfolding of predictNextCycle on a non-empty log list. -/
theorem predictNextCycle_cons (mr : PeriodLog) (rest : List PeriodLog) (fromDate : Date) :
    predictNextCycle (mr :: rest) fromDate =
      ((predictionCandidates
          (nextPeriodStartFrom mr.startDate (calculateAverageCycleLength (mr :: rest)) fromDate)
          (calculateAverageCycleLength (mr :: rest))
          (calculateAveragePeriodLength (mr :: rest))).foldl addIfNew
        (pastPeriodDays (mr :: rest))).mergeSort (fun a b => decide (a.date ≤ b.date)) := rfl

/-- C9: every calendar day of every logged span appears in the day-level
projection as a period day with prediction false, the taper runs heavy,
medium, then light across the span, and no projected entry marked as a
prediction ever falls on a calendar day of a logged span. -/
theorem loggedDays_in_projection (logs : List PeriodLog) (fromDate : Date)
    (log : PeriodLog) (hmem : log ∈ logs) (i : ℕ)
    (hi : (i : ℤ) < log.endDate - log.startDate + 1) :
    ({ date := log.startDate + (i : ℤ), phase := .period, intensity := flowTaper i,
       prediction := false } : CycleDay) ∈ predictNextCycle logs fromDate ∧
    (∀ d ∈ predictNextCycle logs fromDate, d.prediction = true →
        ∀ lg ∈ logs, ∀ j : ℕ, (j : ℤ) < lg.endDate - lg.startDate + 1 →
          d.date ≠ lg.startDate + (j : ℤ)) ∧
    flowTaper 0 = .heavy ∧ flowTaper 1 = .medium ∧ ∀ k, 2 ≤ k → flowTaper k = .light := by
  match logs, hmem with
  | mr :: rest, hmem =>
  rw [predictNextCycle_cons]
  refine ⟨?_, ?_, rfl, rfl, ?_⟩
  · exact List.mem_mergeSort.mpr
      (mem_foldl_addIfNew _ _ _ (mem_pastPeriodDays _ log hmem i hi))
  · intro d hd hpred lg hlg j hj
    have hd2 := List.mem_mergeSort.mp hd
    have hinv := foldl_addIfNew_newDates (pastPeriodDays (mr :: rest)) _ _
      (fun x hx => hx) (fun e he => Or.inl he) d hd2
    rcases hinv with hin | hdates
    · have := pastPeriodDays_prediction_false _ d hin
      rw [this] at hpred
      cases hpred
    · have hp := mem_pastPeriodDays (mr :: rest) lg hlg j hj
      have := hdates _ hp
      exact fun heq => this (by rw [heq])
  · intro k hk
    unfold flowTaper
    rw [if_neg (by omega), if_neg (by omega)]

/-- Witness for loggedDays_in_projection: the first day of the 2024-01-29 log
appears in the projection of the two-log scenario. -/
theorem loggedDays_in_projection_witness :
    (⟨civil 2024 1 29, civil 2024 2 2, Flow.medium⟩ : PeriodLog) ∈ demoLogs ∧
    ((0 : ℕ) : ℤ) < civil 2024 2 2 - civil 2024 1 29 + 1 ∧
    ({ date := civil 2024 1 29 + ((0 : ℕ) : ℤ), phase := .period, intensity := flowTaper 0,
       prediction := false } : CycleDay) ∈ predictNextCycle demoLogs (civil 2024 2 10) :=
  ⟨by decide, by decide,
    (loggedDays_in_projection demoLogs (civil 2024 2 10)
      ⟨civil 2024 1 29, civil 2024 2 2, Flow.medium⟩ (by decide) 0 (by decide)).1⟩

/-- C10: after any sequence of addPeriodLog and clearLogs operations the
internal log list is sorted by start date in descending order, and
getPeriodLogs returns exactly that list (the copy is value-identical; array
identity is outside this value-level model). -/
theorem logOps_sorted (ops : List LogOp) :
    List.Sorted (fun a b : PeriodLog => b.startDate ≤ a.startDate) (runLogOps ops) ∧
    getPeriodLogs (runLogOps ops) = runLogOps ops := by
  refine ⟨?_, rfl⟩
  have main : ∀ (ops : List LogOp) (s : List PeriodLog),
      List.Sorted (fun a b : PeriodLog => b.startDate ≤ a.startDate) s →
      List.Sorted (fun a b : PeriodLog => b.startDate ≤ a.startDate) (ops.foldl applyLogOp s) := by
    intro ops
    induction ops with
    | nil => exact fun s hs => hs
    | cons op ops ih =>
      intro s hs
      apply ih
      cases op with
      | clear => simp [applyLogOp, clearLogs]
      | add log =>
        simp only [applyLogOp, addPeriodLog]
        refine List.Pairwise.imp ?_ (List.sorted_mergeSort ?_ ?_ (s ++ [log]))
        · intro a b h
          simpa using h
        · intro a b c hab hbc
          simp only [decide_eq_true_eq] at hab hbc ⊢
          exact le_trans hbc hab
        · intro a b
          simp only [Bool.or_eq_true, decide_eq_true_eq]
          exact le_total b.startDate a.startDate
  exact main ops [] (by simp)

end Sakhi.CycleCalc

namespace Sakhi.CyclePred

/-- C2 (amended): predictNextCycle does throw for fewer than 3 cycles (the
analyzeCycles guard raises the insufficient-data error, which a single log
triggers); only with at least 3 cycles does it return a prediction, and that
prediction's basedOnCycles equals the number of supplied cycles. -/
theorem predictNextCycle_insufficient (cycles : List CycleLog) :
    (cycles.length < 3 → predictNextCycle cycles = .error insufficientDataMsg) ∧
    (3 ≤ cycles.length → ∃ p, predictNextCycle cycles = .ok p ∧
        p.basedOnCycles = cycles.length) := by
  constructor
  · intro h
    unfold predictNextCycle analyzeCycles
    rw [if_pos (by simpa [MIN_CYCLES_FOR_PREDICTION] using h)]
  · intro h
    unfold predictNextCycle analyzeCycles
    rw [if_neg (by simp only [MIN_CYCLES_FOR_PREDICTION]; omega)]
    exact ⟨_, rfl, rfl⟩

/-- Witness for predictNextCycle_insufficient at a single-log list. -/
theorem predictNextCycle_insufficient_witness :
    [oneCycle].length < 3 ∧ predictNextCycle [oneCycle] = .error insufficientDataMsg :=
  ⟨by decide, (predictNextCycle_insufficient [oneCycle]).1 (by decide)⟩

/-- C2 counterexample: with exactly one log, predictNextCycle raises the
insufficient-data error and returns no prediction at all, so no returned
basedOnCycleCount of 1 exists. -/
theorem predictNextCycle_single_cex :
    predictNextCycle [oneCycle] = .error insufficientDataMsg ∧
    ∀ p : CyclePrediction, predictNextCycle [oneCycle] ≠ .ok p := by
  have h : predictNextCycle [oneCycle] = .error insufficientDataMsg := by
    simp [predictNextCycle, analyzeCycles, MIN_CYCLES_FOR_PREDICTION]
  exact ⟨h, fun p hp => by rw [h] at hp; cases hp⟩

/-- C7: for at least 3 cycles the analysis succeeds and its regularity score
is max(0, min(100, 100 (1 − variationCoefficient / 0.3))) for the coefficient
of variation of the surviving cycle lengths; a coefficient of at least 0.3
yields 0 and a coefficient of 0 yields 100. -/
theorem analyzeCycles_regularity (cycles : List CycleLog) (h3 : 3 ≤ cycles.length) :
    ∃ a, analyzeCycles cycles = .ok a ∧
      a.regularityScore =
        max 0 (min 100 (100 * (1 - variationCoefficientOf cycles / 0.3))) ∧
      (0.3 ≤ variationCoefficientOf cycles → a.regularityScore = 0) ∧
      (variationCoefficientOf cycles = 0 → a.regularityScore = 100) := by
  unfold analyzeCycles
  rw [if_neg (by simp only [MIN_CYCLES_FOR_PREDICTION]; omega)]
  refine ⟨_, rfl, rfl, ?_, ?_⟩
  · intro hv
    show max 0 (min 100 (100 * (1 - variationCoefficientOf cycles / 0.3))) = 0
    have h1 : 100 * (1 - variationCoefficientOf cycles / 0.3) ≤ 0 := by
      have hx : (1 : ℝ) ≤ variationCoefficientOf cycles / 0.3 := by
        rw [le_div_iff₀ (by norm_num)]
        linarith
      linarith
    rw [min_eq_right (le_trans h1 (by norm_num))]
    exact max_eq_left h1
  · intro hv
    show max 0 (min 100 (100 * (1 - variationCoefficientOf cycles / 0.3))) = 100
    rw [hv]
    norm_num

/-- Witness for analyzeCycles_regularity at three identical complete cycles. -/
theorem analyzeCycles_regularity_witness :
    3 ≤ threeCycles.length ∧
    ∃ a, analyzeCycles threeCycles = .ok a ∧
      a.regularityScore =
        max 0 (min 100 (100 * (1 - variationCoefficientOf threeCycles / 0.3))) :=
  ⟨by decide,
    (analyzeCycles_regularity threeCycles (by decide)).elim fun a ha => ⟨a, ha.1, ha.2.1⟩⟩

/-- C8: with the analysis record (hence the regularity score and the
stddev-to-mean ratio) held fixed and a nonnegative regularity score, the
prediction confidence is monotonically non-decreasing in the cycle count
between 3 and 12. -/
theorem confidence_monotone_in_count (a : CycleAnalysis) (m n : ℕ)
    (hreg : 0 ≤ a.regularityScore) (h3 : 3 ≤ m) (hmn : m ≤ n) (h12 : n ≤ 12) :
    calculatePredictionConfidence a m ≤ calculatePredictionConfidence a n := by
  unfold calculatePredictionConfidence jsRoundR
  dsimp only
  gcongr

/-- Witness for confidence_monotone_in_count at a fully regular analysis and
cycle counts 3 and 12. -/
theorem confidence_monotone_in_count_witness :
    (0 : ℝ) ≤ (⟨28, 0, 100, True⟩ : CycleAnalysis).regularityScore ∧
    calculatePredictionConfidence ⟨28, 0, 100, True⟩ 3 ≤
      calculatePredictionConfidence ⟨28, 0, 100, True⟩ 12 :=
  ⟨by norm_num,
    confidence_monotone_in_count ⟨28, 0, 100, True⟩ 3 12 (by norm_num) (by norm_num)
      (by norm_num) (by norm_num)⟩

end Sakhi.CyclePred

namespace Sakhi.Fertility

/-- C4 (amended): the three windows laid around the expected ovulation date
are highly-fertile from ovulation−3 to the ovulation date itself (base
probability 0.3), fertile from the ovulation date to ovulation+2 (base
probability 0.2) and less-fertile from ovulation−5 to ovulation−3 (base
probability 0.1); for ovulation 2024-03-15 the stored window ends are
2024-03-15, 2024-03-17 and 2024-03-12 — one day later than the claim's
2024-03-14, 2024-03-16 and 2024-03-11 — and, endpoints being inclusive under
the service's own containment test, the ovulation day itself matches the
highly-fertile window, so its daily probability factor is 0.3. -/
theorem fertilityWindows_layout (cycles : List CycleLog) (stats : FertilityStats) :
    (predictNextOvulation cycles stats).fertilityWindows =
      [ ⟨cycles.headI.startDate + stats.averageOvulationDay - 3,
         cycles.headI.startDate + stats.averageOvulationDay, .HIGHLY_FERTILE, 0.3⟩,
        ⟨cycles.headI.startDate + stats.averageOvulationDay,
         cycles.headI.startDate + stats.averageOvulationDay + 2, .FERTILE, 0.2⟩,
        ⟨cycles.headI.startDate + stats.averageOvulationDay - 5,
         cycles.headI.startDate + stats.averageOvulationDay - 3, .LESS_FERTILE, 0.1⟩ ] ∧
    (predictNextOvulation demoFertilityCycles demoFertilityStats).fertilityWindows.map
        (fun w => (w.start, w.«end»)) =
      [(civil 2024 3 12, civil 2024 3 15), (civil 2024 3 15, civil 2024 3 17),
       (civil 2024 3 10, civil 2024 3 12)] ∧
    calculateDailyProbability (civil 2024 3 15)
        (predictNextOvulation demoFertilityCycles demoFertilityStats) = 0.3 := by
  refine ⟨?_, ?_, ?_⟩
  · norm_num [predictNextOvulation, HIGHLY_FERTILE_WINDOW]
  · norm_num [predictNextOvulation, demoFertilityCycles, demoFertilityStats, civil,
      HIGHLY_FERTILE_WINDOW, List.headI]
  · norm_num [calculateDailyProbability, predictNextOvulation, demoFertilityCycles,
      demoFertilityStats, civil, List.find?, HIGHLY_FERTILE_WINDOW, List.headI]

/-- C4 counterexample: for ovulation 2024-03-15 the highly-fertile window
ends on 2024-03-15 (not 2024-03-14), the fertile window ends on 2024-03-17
(not 2024-03-16), the less-fertile window ends on 2024-03-12 (not
2024-03-11), and the daily probability factor on the ovulation day is not the
claimed fertile-window 0.2. -/
theorem fertilityWindows_cex :
    ((predictNextOvulation demoFertilityCycles demoFertilityStats).fertilityWindows.map
        (fun w => (w.type, w.«end»))) =
      [(FertilityType.HIGHLY_FERTILE, civil 2024 3 15), (FertilityType.FERTILE, civil 2024 3 17),
       (FertilityType.LESS_FERTILE, civil 2024 3 12)] ∧
    civil 2024 3 15 ≠ civil 2024 3 14 ∧ civil 2024 3 17 ≠ civil 2024 3 16 ∧
    civil 2024 3 12 ≠ civil 2024 3 11 ∧
    calculateDailyProbability (civil 2024 3 15)
        (predictNextOvulation demoFertilityCycles demoFertilityStats) ≠ 0.2 := by
  refine ⟨?_, by decide, by decide, by decide, ?_⟩
  · norm_num [predictNextOvulation, demoFertilityCycles, demoFertilityStats, civil,
      HIGHLY_FERTILE_WINDOW, List.headI]
  · norm_num [calculateDailyProbability, predictNextOvulation, demoFertilityCycles,
      demoFertilityStats, civil, List.find?, HIGHLY_FERTILE_WINDOW, List.headI]

/-- C5 (amended): a date inside some fertility window lies within 5 days
before or 2 days after the expected ovulation; when it is on or before the
ovulation date its phase is FOLLICULAR or OVULATION, but the fertile-window
days strictly after the ovulation date are classified LUTEAL. -/
theorem windowDate_phase (cycles : List CycleLog) (stats : FertilityStats) (date : ℤ)
    (hwin : ∃ w ∈ (predictNextOvulation cycles stats).fertilityWindows,
        w.start ≤ date ∧ date ≤ w.«end») :
    (date ≤ (predictNextOvulation cycles stats).expectedDate →
        determineFertilityPhase date (predictNextOvulation cycles stats) = .FOLLICULAR ∨
        determineFertilityPhase date (predictNextOvulation cycles stats) = .OVULATION) ∧
    ((predictNextOvulation cycles stats).expectedDate < date →
        determineFertilityPhase date (predictNextOvulation cycles stats) = .LUTEAL) := by
  obtain ⟨w, hw, hws, hwe⟩ := hwin
  have hod : (predictNextOvulation cycles stats).expectedDate
      = cycles.headI.startDate + stats.averageOvulationDay := rfl
  have hbounds : (predictNextOvulation cycles stats).expectedDate - 5 ≤ date ∧
      date ≤ (predictNextOvulation cycles stats).expectedDate + 2 := by
    rw [hod]
    simp only [predictNextOvulation, HIGHLY_FERTILE_WINDOW, List.mem_cons,
      List.not_mem_nil, or_false] at hw
    rcases hw with rfl | rfl | rfl <;> dsimp only at hws hwe <;> exact ⟨by omega, by omega⟩
  have hphase : ∀ P : OvulationPrediction, determineFertilityPhase date P =
      (if date - P.expectedDate = 0 then FertilityPhase.OVULATION
       else if date - P.expectedDate < 0 ∧ -5 ≤ date - P.expectedDate then .FOLLICULAR
       else if 0 < date - P.expectedDate ∧ date - P.expectedDate ≤ 14 then .LUTEAL
       else .FOLLICULAR) := fun P => rfl
  obtain ⟨hb1, hb2⟩ := hbounds
  constructor
  · intro hle
    rw [hphase]
    by_cases h0 : date - (predictNextOvulation cycles stats).expectedDate = 0
    · rw [if_pos h0]
      right
      rfl
    · rw [if_neg h0, if_pos (by omega)]
      left
      rfl
  · intro hgt
    rw [hphase]
    rw [if_neg (by omega), if_neg (by omega), if_pos (by omega)]

/-- Witness for windowDate_phase at 2024-03-13 inside the highly-fertile
window of the 2024-03-15 ovulation scenario. -/
theorem windowDate_phase_witness :
    (∃ w ∈ (predictNextOvulation demoFertilityCycles demoFertilityStats).fertilityWindows,
        w.start ≤ civil 2024 3 13 ∧ civil 2024 3 13 ≤ w.«end») ∧
    civil 2024 3 13 ≤ (predictNextOvulation demoFertilityCycles demoFertilityStats).expectedDate ∧
    (determineFertilityPhase (civil 2024 3 13)
        (predictNextOvulation demoFertilityCycles demoFertilityStats) = .FOLLICULAR ∨
     determineFertilityPhase (civil 2024 3 13)
        (predictNextOvulation demoFertilityCycles demoFertilityStats) = .OVULATION) :=
  have hwin : ∃ w ∈ (predictNextOvulation demoFertilityCycles demoFertilityStats).fertilityWindows,
      w.start ≤ civil 2024 3 13 ∧ civil 2024 3 13 ≤ w.«end» :=
    ⟨(predictNextOvulation demoFertilityCycles demoFertilityStats).fertilityWindows[0],
      by simp, by decide, by decide⟩
  ⟨hwin, by decide, (windowDate_phase demoFertilityCycles demoFertilityStats
    (civil 2024 3 13) hwin).1 (by decide)⟩

/-- C5 counterexample: 2024-03-16 lies inside the fertile window of the
2024-03-15 ovulation prediction, yet its reported phase is LUTEAL. -/
theorem windowDate_luteal_cex :
    (∃ w ∈ (predictNextOvulation demoFertilityCycles demoFertilityStats).fertilityWindows,
        w.start ≤ civil 2024 3 16 ∧ civil 2024 3 16 ≤ w.«end») ∧
    determineFertilityPhase (civil 2024 3 16)
        (predictNextOvulation demoFertilityCycles demoFertilityStats) = .LUTEAL := by
  constructor
  · refine ⟨(predictNextOvulation demoFertilityCycles demoFertilityStats).fertilityWindows[1],
      by simp, by decide, by decide⟩
  · rfl

end Sakhi.Fertility
